import Mathlib

/-!
# JuceMolder plugin skeleton: `TestProcessor` and `TestUI`

A shallow embedding of `src/plugin_gen/TestPluginProcessor.h` and
`src/plugin_gen/TestPluginUI.cpp`.

* A C++ member function becomes a Lean function taking the receiver first.
  A non-`const` member returns the receiver after the call next to its result;
  an argument taken by non-`const` reference is returned after the call too.
* `TestProcessor` declares no data member, so the only state an instance has
  is its `juce::AudioProcessor` base subobject. That class belongs to the JUCE
  library; its state is kept as a value of an arbitrary type `β`.
* The macros of `PluginConfig.h` are the fields of `PluginConfig`, passed to
  the member functions that expand them.
* Objects have addresses (`Addr`, `0` for `nullptr`) in a `Memory`; `new` takes
  the next free address of an unbounded memory, so it never throws
  `std::bad_alloc`. A processor is told apart from every other instance by
  its address.
-/

namespace JuceMolder

set_option linter.dupNamespace false

/-! ## Values of the host interface -/

/-- One byte of raw memory. -/
abbrev Byte := Fin 256

/-- An object address; `0` is `nullptr`. -/
abbrev Addr := Nat

/-- The null pointer. -/
def nullptr : Addr := 0

/-- A C++ `double`, kept as its IEEE-754 binary64 bit pattern: the program
passes such values around and never computes with them. -/
structure CDouble where
  bits : Nat
  deriving DecidableEq, Repr

/-- The `double` an integer literal `0` converts to: `+0.0`, all bits clear. -/
def CDouble.zero : CDouble := ⟨0⟩

/-- A C++ `float`, kept as its IEEE-754 binary32 bit pattern. -/
structure CFloat where
  bits : Nat
  deriving DecidableEq, Repr

/-- The conversion `bool( x )` of an integer: true exactly for non-zero `x`. -/
def toBool (x : Int) : Bool := x != 0

/-- The macros of `PluginConfig.h` that `TestPluginProcessor.h` expands. -/
structure PluginConfig where
  JucePlugin_Name : String
  JucePlugin_WantsMidiInput : Int
  JucePlugin_ProducesMidiOutput : Int
  deriving DecidableEq, Repr

/-- A `juce::AudioBuffer<Type>`: the samples of each channel. -/
structure AudioBuffer (α : Type) where
  channels : List (List α)
  deriving DecidableEq, Repr

/-- One event of a `juce::MidiBuffer`: its raw bytes and sample position. -/
structure MidiEvent where
  samplePosition : Int
  data : List Byte
  deriving DecidableEq, Repr

/-- A `juce::MidiBuffer`: its events in order. -/
structure MidiBuffer where
  events : List MidiEvent
  deriving DecidableEq, Repr

/-- A `juce::MemoryBlock`: the bytes it holds. -/
structure MemoryBlock where
  bytes : List Byte
  deriving DecidableEq, Repr

/-- The bytes readable through a `const void*`; `none` is `nullptr`. -/
abbrev ConstVoidPtr := Option (List Byte)

/-- The `MemoryBlock::getSize()` of the library: the number of bytes held. -/
def MemoryBlock.getSize (b : MemoryBlock) : Nat := b.bytes.length

/-- The `MemoryBlock::getData()` of the library: a pointer to the bytes held. -/
def MemoryBlock.getData (b : MemoryBlock) : ConstVoidPtr := some b.bytes

/-! ## `TestProcessor` (`TestPluginProcessor.h`) -/

/-- The class `TestProcessor : public juce::AudioProcessor`. It declares no
data member; `toAudioProcessor` is the inherited base subobject. -/
structure TestProcessor (β : Type) where
  toAudioProcessor : β

variable {β : Type}

namespace TestProcessor

/-- `const juce::String getName() const override { return JucePlugin_Name; }` -/
def getName (cfg : PluginConfig) (_self : TestProcessor β) : String :=
  cfg.JucePlugin_Name

/-- `void prepareToPlay( double, int ) override {}` -/
def prepareToPlay (self : TestProcessor β) (_sampleRate : CDouble)
    (_samplesPerBlock : Int) : TestProcessor β :=
  self

/-- `void releaseResources() override {}` -/
def releaseResources (self : TestProcessor β) : TestProcessor β :=
  self

/-- `void processBlock( juce::AudioBuffer<float>&, juce::MidiBuffer& ) override {}`:
the receiver and the two buffers as they are when the call returns. -/
def processBlock (self : TestProcessor β) (buffer : AudioBuffer CFloat)
    (midiMessages : MidiBuffer) : TestProcessor β × AudioBuffer CFloat × MidiBuffer :=
  (self, buffer, midiMessages)

/-- `double getTailLengthSeconds() const override { return 0; }` -/
def getTailLengthSeconds (_self : TestProcessor β) : CDouble :=
  CDouble.zero

/-- `bool acceptsMidi() const override { return bool( JucePlugin_WantsMidiInput ); }` -/
def acceptsMidi (cfg : PluginConfig) (_self : TestProcessor β) : Bool :=
  toBool cfg.JucePlugin_WantsMidiInput

/-- `bool producesMidi() const override { return bool( JucePlugin_ProducesMidiOutput ); }` -/
def producesMidi (cfg : PluginConfig) (_self : TestProcessor β) : Bool :=
  toBool cfg.JucePlugin_ProducesMidiOutput

/-- `bool hasEditor() const override { return true; }` -/
def hasEditor (_self : TestProcessor β) : Bool :=
  true

/-- `int getNumPrograms() override { return 1; }` -/
def getNumPrograms (self : TestProcessor β) : Int × TestProcessor β :=
  (1, self)

/-- `int getCurrentProgram() override { return 0; }` -/
def getCurrentProgram (self : TestProcessor β) : Int × TestProcessor β :=
  (0, self)

/-- `void setCurrentProgram( int ) override {}` -/
def setCurrentProgram (self : TestProcessor β) (_index : Int) : TestProcessor β :=
  self

/-- `const juce::String getProgramName( int ) override { return juce::String(); }` -/
def getProgramName (self : TestProcessor β) (_index : Int) : String × TestProcessor β :=
  ("", self)

/-- `void changeProgramName( int, const juce::String& ) override {}` -/
def changeProgramName (self : TestProcessor β) (_index : Int) (_newName : String) :
    TestProcessor β :=
  self

/-- `void getStateInformation( juce::MemoryBlock& ) override {}`: the receiver
and the destination block as they are when the call returns. -/
def getStateInformation (self : TestProcessor β) (destData : MemoryBlock) :
    TestProcessor β × MemoryBlock :=
  (self, destData)

/-- `void setStateInformation( const void*, int ) override {}` -/
def setStateInformation (self : TestProcessor β) (_data : ConstVoidPtr)
    (_sizeInBytes : Int) : TestProcessor β :=
  self

end TestProcessor

/-! ## Object memory, `TestUI` and `createEditor` (`TestPluginUI.cpp`) -/

/-- The `juce::AudioProcessorEditor` base subobject of an editor: the
`AudioProcessor&` its constructor was given. -/
structure AudioProcessorEditor where
  processor : Addr
  deriving DecidableEq, Repr

/-- The class `TestUI : public juce::AudioProcessorEditor`. -/
structure TestUI where
  toAudioProcessorEditor : AudioProcessorEditor
  deriving DecidableEq, Repr

/-- `TestUI::TestUI( TestProcessor& processor ) : AudioProcessorEditor( processor ) {}` -/
def TestUI.TestUI (processor : Addr) : TestUI :=
  ⟨⟨processor⟩⟩

/-- An object of the program: a processor or an editor. -/
inductive Object (β : Type) where
  | testProcessor (p : TestProcessor β)
  | testUI (ui : TestUI)

/-- The objects alive, the one at address `i + 1` in position `i`. -/
structure Memory (β : Type) where
  objects : List (Object β)

/-- The object at an address, if there is one. -/
def Memory.deref (m : Memory β) (a : Addr) : Option (Object β) :=
  if a = nullptr then none else m.objects.get? (a - 1)

/-- A `new` expression: the object goes to the next free address, which is
returned together with the memory that now holds it. -/
def Memory.alloc (m : Memory β) (o : Object β) : Addr × Memory β :=
  (m.objects.length + 1, ⟨m.objects ++ [o]⟩)

/-- `juce::AudioProcessorEditor* TestProcessor::createEditor() { return new TestUI( *this ); }`
called on the processor at address `this`: the pointer returned and the memory
when the call returns. It is the one member that uses the identity of its
receiver, so it takes the receiver by address. -/
def TestProcessor.createEditor (this : Addr) (m : Memory β) : Addr × Memory β :=
  m.alloc (.testUI (TestUI.TestUI this))

/-! ## Lifecycle calls and observations -/

/-- A call the host makes on a processor, with its arguments. -/
inductive Call where
  | prepareToPlay (sampleRate : CDouble) (samplesPerBlock : Int)
  | releaseResources
  | processBlock (buffer : AudioBuffer CFloat) (midiMessages : MidiBuffer)
  | getNumPrograms
  | getCurrentProgram
  | setCurrentProgram (index : Int)
  | getProgramName (index : Int)
  | changeProgramName (index : Int) (newName : String)
  | getStateInformation (destData : MemoryBlock)
  | setStateInformation (data : ConstVoidPtr) (sizeInBytes : Int)

/-- The processor after one call. -/
def step (p : TestProcessor β) : Call → TestProcessor β
  | .prepareToPlay r n => p.prepareToPlay r n
  | .releaseResources => p.releaseResources
  | .processBlock a m => (p.processBlock a m).1
  | .getNumPrograms => p.getNumPrograms.2
  | .getCurrentProgram => p.getCurrentProgram.2
  | .setCurrentProgram n => p.setCurrentProgram n
  | .getProgramName i => (p.getProgramName i).2
  | .changeProgramName j s => p.changeProgramName j s
  | .getStateInformation b => (p.getStateInformation b).1
  | .setStateInformation d n => p.setStateInformation d n

/-- The processor after a sequence of calls, made in order. -/
def run (p : TestProcessor β) (calls : List Call) : TestProcessor β :=
  calls.foldl step p

/-- What the accessors of a processor report. -/
structure Observation where
  name : String
  numPrograms : Int
  currentProgram : Int
  programName : Int → String
  tailLengthSeconds : CDouble
  acceptsMidi : Bool
  producesMidi : Bool
  hasEditor : Bool

/-- The values of all accessors of `p`. -/
def observe (cfg : PluginConfig) (p : TestProcessor β) : Observation where
  name := p.getName cfg
  numPrograms := p.getNumPrograms.1
  currentProgram := p.getCurrentProgram.1
  programName := fun i => (p.getProgramName i).1
  tailLengthSeconds := p.getTailLengthSeconds
  acceptsMidi := p.acceptsMidi cfg
  producesMidi := p.producesMidi cfg
  hasEditor := p.hasEditor

/-- Save the state of `p` into `b`, then restore `p` from what `b` holds. -/
def saveThenRestore (p : TestProcessor β) (b : MemoryBlock) : TestProcessor β × MemoryBlock :=
  let saved := p.getStateInformation b
  (saved.1.setStateInformation saved.2.getData saved.2.getSize, saved.2)

/-! ## Shared lemmas -/

/-- No call changes the processor. -/
theorem step_eq (p : TestProcessor β) (c : Call) : step p c = p := by
  cases c <;> rfl

/-- No sequence of calls changes the processor. -/
theorem run_eq (p : TestProcessor β) (calls : List Call) : run p calls = p := by
  induction calls generalizing p with
  | nil => rfl
  | cons c cs ih =>
    show run (step p c) cs = p
    rw [step_eq]
    exact ih p

/-- The address `new` returns is not null. -/
theorem Memory.alloc_ne_nullptr (m : Memory β) (o : Object β) :
    (m.alloc o).1 ≠ nullptr := by
  simp [Memory.alloc, nullptr]

/-- The address `new` returns was free before. -/
theorem Memory.deref_fresh (m : Memory β) (o : Object β) :
    m.deref (m.alloc o).1 = none := by
  simp [Memory.alloc, Memory.deref, nullptr]

/-- The address `new` returns holds the object just built. -/
theorem Memory.deref_alloc (m : Memory β) (o : Object β) :
    (m.alloc o).2.deref (m.alloc o).1 = some o := by
  simp [Memory.alloc, Memory.deref, nullptr]

/-- The objects already alive stay where they are under `new`. -/
theorem Memory.deref_alloc_old (m : Memory β) (o old : Object β) (a : Addr)
    (h : m.deref a = some old) : (m.alloc o).2.deref a = some old := by
  unfold Memory.deref at h ⊢
  by_cases ha : a = nullptr
  · simp [ha] at h
  · simp only [ha, if_false] at h ⊢
    have hlt : a - 1 < m.objects.length := by
      rcases Nat.lt_or_ge (a - 1) m.objects.length with hl | hl
      · exact hl
      · rw [List.get?_eq_none.mpr hl] at h
        cases h
    simp only [Memory.alloc]
    rw [List.get?_eq_getElem?, List.getElem?_append_left hlt, ← List.get?_eq_getElem?]
    exact h

/-! ## Properties of the processor -/

/-- C1: in every state a processor reaches by any sequence of lifecycle calls,
`getNumPrograms()` returns exactly 1. -/
theorem getNumPrograms_eq_one_of_run (p : TestProcessor β) (calls : List Call) :
    (run p calls).getNumPrograms.1 = 1 := by
  rw [run_eq]
  rfl

/-- C2: `getCurrentProgram()` returns 0 before and after `setCurrentProgram(n)`
for every integer `n`, so `setCurrentProgram` never changes the value it reports. -/
theorem getCurrentProgram_setCurrentProgram (p : TestProcessor β) (n : Int) :
    p.getCurrentProgram.1 = 0 ∧
    (p.setCurrentProgram n).getCurrentProgram.1 = 0 ∧
    (p.setCurrentProgram n).getCurrentProgram.1 = p.getCurrentProgram.1 :=
  ⟨rfl, rfl, rfl⟩

/-- C3: `getStateInformation(b)` leaves `b` byte for byte as it was,
`setStateInformation(data, size)` leaves every accessor of the processor
unchanged, and saving into `b` and then restoring from `b` leaves the processor
observably identical (and `b` untouched). -/
theorem state_save_restore_noop (cfg : PluginConfig) (p : TestProcessor β)
    (b : MemoryBlock) (data : ConstVoidPtr) (size : Int) :
    (p.getStateInformation b).2.bytes = b.bytes ∧
    observe cfg (p.getStateInformation b).1 = observe cfg p ∧
    observe cfg (p.setStateInformation data size) = observe cfg p ∧
    observe cfg (saveThenRestore p b).1 = observe cfg p ∧
    (saveThenRestore p b).2.bytes = b.bytes :=
  ⟨rfl, rfl, rfl, rfl, rfl⟩

/-- C4, as stated, fails: a destination block that holds one byte on entry
still holds that byte, not zero bytes, when `getStateInformation` returns. -/
theorem getStateInformation_block_not_emptied :
    ((TestProcessor.mk ()).getStateInformation ⟨[7]⟩).2.getSize = 1 ∧
    ¬ ((TestProcessor.mk ()).getStateInformation ⟨[7]⟩).2.getSize = 0 := by
  decide

/-- C4, amended: when `getStateInformation` returns, the destination block
holds exactly the bytes it held on entry (nothing is written to it), so it
holds zero bytes on return exactly when it held zero bytes on entry. -/
theorem getStateInformation_block_unchanged (p : TestProcessor β) (b : MemoryBlock) :
    (p.getStateInformation b).2.bytes = b.bytes ∧
    ((p.getStateInformation b).2.getSize = 0 ↔ b.getSize = 0) :=
  ⟨rfl, Iff.rfl⟩

/-- C5: for the processor `p` at address `this`, `createEditor()` returns a
non-null pointer to a newly created editor, and the processor reference that
editor was constructed with is the address of `p`, where `p` still is, and the
address of no other object. -/
theorem createEditor_bound_to_this (p : TestProcessor β) (this : Addr) (m : Memory β)
    (h : m.deref this = some (.testProcessor p)) :
    (TestProcessor.createEditor this m).1 ≠ nullptr ∧
    m.deref (TestProcessor.createEditor this m).1 = none ∧
    ∃ ui : TestUI,
      (TestProcessor.createEditor this m).2.deref (TestProcessor.createEditor this m).1
        = some (.testUI ui) ∧
      ui.toAudioProcessorEditor.processor = this ∧
      (TestProcessor.createEditor this m).2.deref ui.toAudioProcessorEditor.processor
        = some (.testProcessor p) ∧
      ∀ other : Addr, other ≠ this → ui.toAudioProcessorEditor.processor ≠ other := by
  refine ⟨Memory.alloc_ne_nullptr m _, Memory.deref_fresh m _, TestUI.TestUI this,
    Memory.deref_alloc m _, rfl, Memory.deref_alloc_old m _ _ this h, ?_⟩
  intro other hne heq
  exact hne heq.symm

/-- C5 at a concrete input: a memory whose only object is a processor, at
address 1. -/
theorem createEditor_bound_to_this_witness :
    (⟨[.testProcessor ⟨()⟩]⟩ : Memory Unit).deref 1 = some (.testProcessor ⟨()⟩) ∧
    (TestProcessor.createEditor 1 (⟨[.testProcessor ⟨()⟩]⟩ : Memory Unit)).1 = 2 ∧
    (TestProcessor.createEditor 1 (⟨[.testProcessor ⟨()⟩]⟩ : Memory Unit)).1 ≠ nullptr :=
  ⟨rfl, rfl, (createEditor_bound_to_this (⟨()⟩ : TestProcessor Unit) 1
    ⟨[.testProcessor ⟨()⟩]⟩ rfl).1⟩

/-- C6: `getTailLengthSeconds()` returns exactly 0 (the `double` with all bits
clear) whatever calls, `prepareToPlay` and `processBlock` among them, came before. -/
theorem getTailLengthSeconds_eq_zero_of_run (p : TestProcessor β) (calls : List Call) :
    (run p calls).getTailLengthSeconds = CDouble.zero ∧
    (run p calls).getTailLengthSeconds.bits = 0 :=
  ⟨rfl, rfl⟩

/-- C7: `getProgramName(i)` returns the empty string for every index `i`, also
after `changeProgramName(j, name)` for every `j` and `name`: the name reported
is the one reported before, and it is not `name` unless `name` is empty. -/
theorem getProgramName_changeProgramName (p : TestProcessor β) (i j : Int) (name : String) :
    (p.getProgramName i).1 = "" ∧
    ((p.changeProgramName j name).getProgramName i).1 = "" ∧
    ((p.changeProgramName j name).getProgramName i).1 = (p.getProgramName i).1 ∧
    (name ≠ "" → ((p.changeProgramName j name).getProgramName i).1 ≠ name) :=
  ⟨rfl, rfl, rfl, fun hne heq => hne heq.symm⟩

/-- C8: in every reachable state `acceptsMidi()` is true exactly when
`JucePlugin_WantsMidiInput` is non-zero and `producesMidi()` is true exactly
when `JucePlugin_ProducesMidiOutput` is non-zero; neither depends on the calls
made before. -/
theorem midi_flags_from_config (cfg : PluginConfig) (p : TestProcessor β) (calls : List Call) :
    ((run p calls).acceptsMidi cfg = true ↔ cfg.JucePlugin_WantsMidiInput ≠ 0) ∧
    ((run p calls).producesMidi cfg = true ↔ cfg.JucePlugin_ProducesMidiOutput ≠ 0) ∧
    (run p calls).acceptsMidi cfg = p.acceptsMidi cfg ∧
    (run p calls).producesMidi cfg = p.producesMidi cfg := by
  refine ⟨?_, ?_, rfl, rfl⟩ <;> simp [TestProcessor.acceptsMidi, TestProcessor.producesMidi, toBool]

/-- C9: `processBlock(audio, midi)` leaves the samples of `audio`, the events of
`midi` and every accessor of the processor as they were on entry; so do
`prepareToPlay(rate, blockSize)` and `releaseResources()` for the processor. -/
theorem processBlock_no_work (cfg : PluginConfig) (p : TestProcessor β)
    (audio : AudioBuffer CFloat) (midi : MidiBuffer) (rate : CDouble) (blockSize : Int) :
    (p.processBlock audio midi).2.1.channels = audio.channels ∧
    (p.processBlock audio midi).2.2.events = midi.events ∧
    observe cfg (p.processBlock audio midi).1 = observe cfg p ∧
    observe cfg (p.prepareToPlay rate blockSize) = observe cfg p ∧
    observe cfg p.releaseResources = observe cfg p :=
  ⟨rfl, rfl, rfl, rfl, rfl⟩

/-- C10: in every state `hasEditor()` returns true and `createEditor()` returns
a non-null pointer to an editor, so the two agree. -/
theorem hasEditor_agrees_with_createEditor (p : TestProcessor β) (calls : List Call)
    (this : Addr) (m : Memory β) :
    (run p calls).hasEditor = true ∧
    (TestProcessor.createEditor this m).1 ≠ nullptr ∧
    (∃ ui : TestUI,
      (TestProcessor.createEditor this m).2.deref (TestProcessor.createEditor this m).1
        = some (.testUI ui)) ∧
    ((run p calls).hasEditor = true ↔ (TestProcessor.createEditor this m).1 ≠ nullptr) :=
  ⟨rfl, Memory.alloc_ne_nullptr m _, ⟨TestUI.TestUI this, Memory.deref_alloc m _⟩,
    ⟨fun _ => Memory.alloc_ne_nullptr m _, fun _ => rfl⟩⟩

end JuceMolder
